import Mathlib

/-
Verification of the mod_agentes ticket-diagnosis orchestration engine.

This file is a shallow embedding of the core of the repository:
  * services/agent_service.py   (AgentService.diagnose_ticket)
  * services/update_service.py  (ZnunyService: session cache, article
    selection, incident pipeline, orchestrator)

Python values that originate from JSON are modelled by `JsonValue`, with
`JsonValue.null` playing the role of Python `None` (json.loads maps JSON
null to None, and dict.get returns None for a missing key).  Python
machine strings are Lean `String`s; all string primitives used by the
code (strip, strip of code fences, replace, substring containment) are
re-implemented over `List Char` so that every definition evaluates
inside the kernel.  `json.loads` is modelled by a fuel-bounded
recursive-descent parser for the JSON fragment the service exchanges
(objects, arrays, strings with the common escapes, integers, booleans,
null); float literals and \u escapes are not modelled, the parser
rejects them, which is conservative for every claim below.  Time stamps
are modelled as integers.
-/

namespace ModAgentes

/-! ## Python-side value model -/
/-- A Python value as produced by `json.loads`; `null` doubles as Python
`None` (json maps JSON null to None). -/
inductive JsonValue where
  | null
  | bool (b : Bool)
  | num (n : Int)
  | str (s : String)
  | arr (elems : List JsonValue)
  | obj (fields : List (String × JsonValue))

/-- Kernel-reducible string equality (via the character list). -/
def strEq (a b : String) : Bool := a.toList == b.toList

/-- Python whitespace stripped by `str.strip()`. -/
def isPySpace (c : Char) : Bool :=
  c == ' ' || c == '\t' || c == '\n' || c == '\r' || c == '\x0b' || c == '\x0c'

/-- Characters stripped from both ends, as a list operation. -/
def stripBothL (p : Char → Bool) (cs : List Char) : List Char :=
  ((cs.dropWhile p).reverse.dropWhile p).reverse

/-- Python `str.strip()` (no argument: strips whitespace at both ends). -/
def pyTrim (s : String) : String := String.mk (stripBothL isPySpace s.toList)

/-- The backtick character (U+0060). -/
def backtickChar : Char := Char.ofNat 96

/-- Python `str.strip` applied with the backtick character, as in
`response_text.strip().strip("\x60")`. -/
def stripTicks (s : String) : String :=
  String.mk (stripBothL (fun c => c == backtickChar) s.toList)

/-- Whether `pat` is a prefix of `cs`. -/
def startsWithL : List Char → List Char → Bool
  | [], _ => true
  | _ :: _, [] => false
  | p :: ps, c :: cs => p == c && startsWithL ps cs

/-- Replace every occurrence of `pat` (fuel-bounded scan). -/
def replaceAllL (pat rep : List Char) : Nat → List Char → List Char
  | 0, cs => cs
  | _, [] => []
  | fuel + 1, c :: cs =>
    if startsWithL pat (c :: cs) then
      rep ++ replaceAllL pat rep fuel ((c :: cs).drop pat.length)
    else
      c :: replaceAllL pat rep fuel cs

/-- Python `s.replace(pat, rep)` (replace all occurrences). -/
def pyReplace (s pat rep : String) : String :=
  String.mk (replaceAllL pat.toList rep.toList (s.toList.length + 1) s.toList)

/-- Whether `needle` occurs as a substring (Python `in`). -/
def containsL (needle : List Char) : List Char → Bool
  | [] => needle.isEmpty
  | c :: cs => startsWithL needle (c :: cs) || containsL needle cs

/-- Python `needle in hay` on strings. -/
def strContains (hay needle : String) : Bool := containsL needle.toList hay.toList

/-- Python truthiness (`bool(v)`): None, False, 0, "", [] and {} are falsy. -/
def truthy : JsonValue → Bool
  | .null => false
  | .bool b => b
  | .num n => n != 0
  | .str s => !s.toList.isEmpty
  | .arr l => !l.isEmpty
  | .obj l => !l.isEmpty

/-- Python `dict.get(k, dflt)` on a parsed-JSON object.  Python keeps the
last binding for a duplicated key, hence the reversed lookup. -/
def pyGetD (d : List (String × JsonValue)) (k : String) (dflt : JsonValue) : JsonValue :=
  match d.reverse.find? (fun p => strEq p.1 k) with
  | some p => p.2
  | none => dflt

/-- Python `dict.get(k)` (missing key gives None). -/
def pyGet (d : List (String × JsonValue)) (k : String) : JsonValue :=
  pyGetD d k .null

/-- Whether the key is present in the dict (Python `k in d`). -/
def hasKey (d : List (String × JsonValue)) (k : String) : Bool :=
  (d.find? (fun p => strEq p.1 k)).isSome

/-- Python `or` on two values: the first if truthy, else the second. -/
def pyOr (a b : JsonValue) : JsonValue := if truthy a then a else b

/-- Rendering of a value inside an f-string (`str(v)`).  Scalars are
rendered exactly; the rendering of lists and dicts is abbreviated (no
live code path of the service formats a list or dict value). -/
def pyStr : JsonValue → String
  | .null => "None"
  | .bool true => "True"
  | .bool false => "False"
  | .num n => toString n
  | .str s => s
  | .arr _ => "[...]"
  | .obj _ => "\x7b...\x7d"

/-! ## A model of `json.loads`

Fuel-bounded recursive descent over the character list.  The fuel is a
termination device only: `json_loads` hands every call enough fuel for
its input (each recursive call consumes at least one character or list
element). -/
/-- JSON whitespace accepted between tokens. -/
def isJsonWs (c : Char) : Bool :=
  c == ' ' || c == '\t' || c == '\n' || c == '\r'

/-- Skip JSON whitespace. -/
def skipJsonWs (cs : List Char) : List Char := cs.dropWhile isJsonWs

/-- Decimal digits to a natural number. -/
def digitsToNat (ds : List Char) : Nat :=
  ds.foldl (fun acc c => acc * 10 + (c.toNat - '0'.toNat)) 0

/-- Parse a JSON integer literal.  A fraction or exponent (a float) is
rejected: the service never exchanges float fields, and a rejection is
mapped to the same JSONDecodeError fallback as any other non-JSON
text. -/
def parseNum (cs : List Char) : Option (JsonValue × List Char) :=
  let p := match cs with
    | '-' :: r => (true, r)
    | _ => (false, cs)
  let ds := p.2.takeWhile Char.isDigit
  let rest := p.2.dropWhile Char.isDigit
  if ds.isEmpty then none
  else if ds.length > 1 && ds.headD '0' == '0' then none
  else match rest with
    | '.' :: _ => none
    | 'e' :: _ => none
    | 'E' :: _ => none
    | _ =>
      let n : Int := Int.ofNat (digitsToNat ds)
      some (.num (if p.1 then -n else n), rest)

mutual

/-- Parse one JSON value. -/
def parseVal : Nat → List Char → Option (JsonValue × List Char)
  | 0, _ => none
  | fuel + 1, cs =>
    match skipJsonWs cs with
    | 'n' :: 'u' :: 'l' :: 'l' :: rest => some (.null, rest)
    | 't' :: 'r' :: 'u' :: 'e' :: rest => some (.bool true, rest)
    | 'f' :: 'a' :: 'l' :: 's' :: 'e' :: rest => some (.bool false, rest)
    | '"' :: rest =>
      (match parseStrBody fuel [] rest with
       | some (s, r) => some (.str s, r)
       | none => none)
    | '[' :: rest =>
      (match skipJsonWs rest with
       | ']' :: r => some (.arr [], r)
       | cs2 => parseItems fuel cs2 [])
    | '{' :: rest =>
      (match skipJsonWs rest with
       | '}' :: r => some (.obj [], r)
       | cs2 => parseMembers fuel cs2 [])
    | cs2 => parseNum cs2

/-- Parse the body of a JSON string literal (after the opening quote),
with the common escapes. -/
def parseStrBody : Nat → List Char → List Char → Option (String × List Char)
  | 0, _, _ => none
  | fuel + 1, acc, cs =>
    match cs with
    | [] => none
    | '"' :: rest => some (String.mk acc.reverse, rest)
    | '\\' :: e :: rest =>
      (match e with
       | '"' => parseStrBody fuel ('"' :: acc) rest
       | '\\' => parseStrBody fuel ('\\' :: acc) rest
       | '/' => parseStrBody fuel ('/' :: acc) rest
       | 'b' => parseStrBody fuel ('\x08' :: acc) rest
       | 'f' => parseStrBody fuel ('\x0c' :: acc) rest
       | 'n' => parseStrBody fuel ('\n' :: acc) rest
       | 'r' => parseStrBody fuel ('\r' :: acc) rest
       | 't' => parseStrBody fuel ('\t' :: acc) rest
       | _ => none)
    | c :: rest => if c.toNat < 32 then none else parseStrBody fuel (c :: acc) rest

/-- Parse the elements of a non-empty JSON array. -/
def parseItems : Nat → List Char → List JsonValue → Option (JsonValue × List Char)
  | 0, _, _ => none
  | fuel + 1, cs, acc =>
    match parseVal fuel cs with
    | none => none
    | some (v, r) =>
      match skipJsonWs r with
      | ',' :: r2 => parseItems fuel r2 (v :: acc)
      | ']' :: r2 => some (.arr (v :: acc).reverse, r2)
      | _ => none

/-- Parse the members of a non-empty JSON object. -/
def parseMembers : Nat → List Char → List (String × JsonValue) → Option (JsonValue × List Char)
  | 0, _, _ => none
  | fuel + 1, cs, acc =>
    match skipJsonWs cs with
    | '"' :: r =>
      (match parseStrBody fuel [] r with
       | none => none
       | some (k, r1) =>
         match skipJsonWs r1 with
         | ':' :: r2 =>
           (match parseVal fuel r2 with
            | none => none
            | some (v, r3) =>
              match skipJsonWs r3 with
              | ',' :: r4 => parseMembers fuel r4 ((k, v) :: acc)
              | '}' :: r4 => some (.obj ((k, v) :: acc).reverse, r4)
              | _ => none)
         | _ => none)
    | _ => none

end

/-- Model of Python `json.loads`: parse one value, allow trailing
whitespace, fail (JSONDecodeError) on anything else. -/
def json_loads (s : String) : Option JsonValue :=
  match parseVal (2 * s.toList.length + 4) s.toList with
  | some (v, rest) => if (skipJsonWs rest).isEmpty then some v else none
  | none => none

/-! ## AgentService.diagnose_ticket  (services/agent_service.py, lines 14-45) -/
/-- Fallback string returned when the model client returned nothing. -/
def msgNoResponse : String :=
  "Diagnóstico automático no disponible (Modelo de IA no respondió)."

/-- Fallback string returned when the parsed JSON has no truthy
`diagnostico`/`diagnosis` field. -/
def msgNoDiagField : String :=
  "Diagnóstico automático no disponible (IA no entregó campo diagnóstico)."

/-- Default used in the dict literal `diagnostico or "..."`. -/
def msgVacia : String := "Diagnóstico no disponible (IA vacía)."

/-- Cleaning applied before parsing (line 28):
`response_text.strip().strip("\x60").replace("json", "")`. -/
def cleanResponse (s : String) : String :=
  pyReplace (stripTicks (pyTrim s)) "json" ""

/-- Result of `AgentService.diagnose_ticket`: the method returns either a
plain string, or a dict; on a JSON response that is valid JSON but not an
object, the `.get` attribute access raises an uncaught AttributeError
(only `json.JSONDecodeError` is handled). -/
inductive DiagResult where
  | retStr (s : String)
  | retDict (d : List (String × JsonValue))
  | attrError

/-- Embedding of `AgentService.diagnose_ticket` (lines 14-45) as a
function of the raw model response.  An empty model response is the
falsy `response_text` case of line 21. -/
def diagnose_ticket (response_text : String) : DiagResult :=
  if response_text.toList.isEmpty then .retStr msgNoResponse
  else
    match json_loads (cleanResponse response_text) with
    | some (.obj data) =>
      let d1 := pyGet data "diagnostico"
      let diagnostico := if truthy d1 then d1 else pyGet data "diagnosis"
      let type_id := pyGet data "type_id"
      if !truthy diagnostico then .retStr msgNoDiagField
      else .retDict [("type_id", type_id), ("diagnostico", pyOr diagnostico (.str msgVacia))]
    | some _ => .attrError
    | none => .retDict [("diagnostico", .str (pyTrim response_text)), ("type_id", .null)]

/-! ## ZnunyService._extract_relevant_text  (update_service.py, lines 164-188)

An article as delivered by the backend ticket read.  `Subject` and `Body`
model `a.get("Subject", "")` / `a.get("Body", "")` (an absent key is the
empty string); `SenderType` is carried by the backend data but is never
read by the code.  `CreateTime`, a timestamp-or-ordinal, is modelled as a
natural number. -/
structure Article where
  CreateTime : Option Nat
  ArticleID : Option Nat
  SenderType : String
  Subject : String
  Body : String
deriving DecidableEq

/-- Python `o or k` for the optional numeric sort-key components (both
None and 0 are falsy and fall through). -/
def pyKeyOr (o : Option Nat) (k : Nat) : Nat :=
  match o with
  | some n => if n ≠ 0 then n else k
  | none => k

/-- The sort key of line 172: `a.get("CreateTime") or a.get("ArticleID") or 0`. -/
def pyKey (a : Article) : Nat := pyKeyOr a.CreateTime (pyKeyOr a.ArticleID 0)

/-- Comparison used by the sort. -/
def keyLe (a b : Article) : Prop := pyKey a ≤ pyKey b

instance : DecidableRel keyLe := fun a b => Nat.decLe (pyKey a) (pyKey b)

instance : IsTotal Article keyLe := ⟨fun a b => Nat.le_total (pyKey a) (pyKey b)⟩

instance : IsTrans Article keyLe := ⟨fun _ _ _ h1 h2 => Nat.le_trans h1 h2⟩

/-- Model of Python `sorted(articles, key=...)` (line 170): a stable
ascending sort.  A stable sort is uniquely determined by the key order
and the input order, so the insertion sort below computes exactly the
list `sorted` returns. -/
def pySorted (l : List Article) : List Article := List.insertionSort keyLe l

/-- The article formatting of line 188:
`f"Subject: {subject}\n---\nBody:\n{body}"`. -/
def formatArticle (a : Article) : String :=
  "Subject: " ++ a.Subject ++ "\n---\nBody:\n" ++ a.Body

/-- Embedding of `ZnunyService._extract_relevant_text` (lines 164-188).
`none` for `articles` models the not-a-list case (line 166); the code
sorts, takes the FIRST article of the sorted order, and returns `None`
when that article has an empty subject and an empty body. -/
def extract_relevant_text (articles : Option (List Article)) : Option String :=
  match articles with
  | none => none
  | some arts =>
    if arts.isEmpty then none
    else
      match pySorted arts with
      | [] => none
      | first :: _ =>
        if first.Subject.toList.isEmpty && first.Body.toList.isEmpty then none
        else some (formatArticle first)

/-- Modelled from the spec: the "is automatic notification" classification
of spec section 4.2 is not implemented anywhere in src/ (the selector
reads no sender or content field), so the vocabulary needed to state C1
is taken from the spec's words: a message is automatic iff its sender
kind is system, or its subject matches a ticket-creation notification
pattern while its body contains the "request has been registered"
boilerplate, or its body contains a denylisted boilerplate fragment (the
denylist contents appear nowhere in the repository; we use the
registered-request phrase the spec names). -/
def isAutomaticMsg (a : Article) : Bool :=
  strEq a.SenderType "system"
  || (strContains a.Subject "Ticket Creation Notification"
      && strContains a.Body "request has been registered")
  || strContains a.Body "Su solicitud ha sido registrada"

/-- First message of the C1 counterexample: an earlier, genuine customer
message. -/
def c1m1 : Article :=
  { CreateTime := some 100, ArticleID := some 1, SenderType := "customer",
    Subject := "s1", Body := "printer broken" }

/-- Second message of the C1 counterexample: a later, genuine customer
message. -/
def c1m2 : Article :=
  { CreateTime := some 200, ArticleID := some 2, SenderType := "customer",
    Subject := "s2", Body := "still broken" }

/-- First message of the C7 counterexample: empty subject and body,
earliest key. -/
def c7m1 : Article :=
  { CreateTime := some 100, ArticleID := some 1, SenderType := "customer",
    Subject := "", Body := "" }

/-- Second message of the C7 counterexample: non-empty subject and body,
later key. -/
def c7m2 : Article :=
  { CreateTime := some 200, ArticleID := some 2, SenderType := "customer",
    Subject := "s", Body := "b" }

/-! ## ZnunyService session cache  (update_service.py, lines 53-101)

The cache is the pair `(_cached_session_id, _cached_session_ts)`;
`time.time()` is modelled as an integer instant, the TTL as an integer
number of seconds.  The outcome of `_login_create_session` (one
authentication round-trip: success yields the SessionID string, any
transport error, non-2xx response, missing credentials or missing
SessionID field raises) is a parameter of the embedding. -/
structure SessionEnv where
  ZNUNY_SESSION_ID : Option String
  SESSION_ID : Option String
  session_ttl : Int
deriving DecidableEq

structure SessionState where
  cached_session_id : Option String
  cached_session_ts : Int
deriving DecidableEq

/-- Result of one `get_or_create_session_id` call: the returned value (or
the raised error), the cache state after the call, and how many
authentication calls were made. -/
structure SessionResult where
  result : Except Unit String
  state : SessionState
  authCalls : Nat

/-- Python truthiness of an environment lookup (unset and "" are falsy). -/
def pyEnvTruthy (o : Option String) : Bool :=
  match o with
  | some s => !s.toList.isEmpty
  | none => false

/-- Line 90: `os.environ.get("ZNUNY_SESSION_ID") or os.environ.get("SESSION_ID")`. -/
def envSid (e : SessionEnv) : Option String :=
  if pyEnvTruthy e.ZNUNY_SESSION_ID then e.ZNUNY_SESSION_ID else e.SESSION_ID

/-- Whether the environment override of line 91 is taken. -/
def overrideSet (e : SessionEnv) : Bool := pyEnvTruthy (envSid e)

/-- Line 95 condition: the cached id is truthy and strictly younger than
the TTL. -/
def cacheFresh (e : SessionEnv) (st : SessionState) (now : Int) : Bool :=
  match st.cached_session_id with
  | some c => !c.toList.isEmpty && decide (now - st.cached_session_ts < e.session_ttl)
  | none => false

/-- Lines 98-101: authenticate; on success assign the cache fields, on
failure the raise prevents both assignments. -/
def sessionLoginStep (st : SessionState) (now : Int)
    (login : Except Unit String) : SessionResult :=
  match login with
  | .ok sid =>
    { result := .ok sid,
      state := { cached_session_id := some sid, cached_session_ts := now },
      authCalls := 1 }
  | .error _ => { result := .error (), state := st, authCalls := 1 }

/-- Embedding of `ZnunyService.get_or_create_session_id` (lines 87-101). -/
def get_or_create_session_id (e : SessionEnv) (st : SessionState) (now : Int)
    (login : Except Unit String) : SessionResult :=
  match envSid e with
  | some s =>
    if s.toList.isEmpty then
      (if cacheFresh e st now then
        { result := .ok (st.cached_session_id.getD ""), state := st, authCalls := 0 }
       else sessionLoginStep st now login)
    else { result := .ok s, state := st, authCalls := 0 }
  | none =>
    if cacheFresh e st now then
      { result := .ok (st.cached_session_id.getD ""), state := st, authCalls := 0 }
    else sessionLoginStep st now login

/-- Environment with a configured override, for the C6 witness. -/
def c6EnvOverride : SessionEnv :=
  { ZNUNY_SESSION_ID := some "sid-env", SESSION_ID := none, session_ttl := 3300 }

/-- Environment without an override, for the C6 witness. -/
def c6EnvPlain : SessionEnv :=
  { ZNUNY_SESSION_ID := none, SESSION_ID := none, session_ttl := 3300 }

/-- Cache state holding a fresh session, for the C6 witness. -/
def c6StFresh : SessionState := { cached_session_id := some "sid-c", cached_session_ts := 0 }

/-- Empty cache state, for the C6 witness. -/
def c6StEmpty : SessionState := { cached_session_id := none, cached_session_ts := 0 }

/-! ## Incident pipeline  (update_service.py, lines 271-517)

`_call_error_log`, `_call_multimodal_service`, `get_ticket_metadata` and
`extract_client_info` are external round-trips; their outcomes are
parameters of the embedding.  A backend ticket write is recorded as a
`ZnunyWrite` value. -/
/-- Metadata dict built by `get_ticket_metadata` (lines 103-136): every
key is always present, with possibly-None values; only the two fields
read by `_process_incident` are modelled. -/
structure TicketMetadata where
  ticket_number : JsonValue
  title : JsonValue

/-- The `incident_data` dict built in `_process_incident` (lines
298-310).  The Python dict stores `str(ticket_id)` and the background
task recovers the number with `int(...)`; since `int(str(n)) == n`, the
embedding keeps the integer.  `delegated` is the key added at line 320
(absent at submission time). -/
structure IncidentData where
  ticket_id : Int
  ticket_number : JsonValue
  title : JsonValue
  ticket_text : String
  entity : JsonValue
  diagnostico_inicial : JsonValue
  session_id : String
  queue_id : Int
  priority_id : Int
  state_id : Int
  processed_at : String
  delegated : Option Bool

/-- One backend ticket-update call.  `ticketUpdate` records a call to
`update_ticket` (lines 190-234, the synchronous write), `articleUpdate`
a call to `_update_znuny_article` (lines 485-517, the background-task
write). -/
inductive ZnunyWrite where
  | ticketUpdate (ticket_id : Int) (session_id : String)
      (title user queue_id priority_id state_id subject : JsonValue)
      (body : String) (type_id : JsonValue)
  | articleUpdate (ticket_id : Int) (session_id : String)
      (subject body : String) (type_id : Int)

/-- Python `type_id != 10` is False exactly on the integer 10 (no other
JSON value compares equal to 10; floats are not modelled). -/
def isNum10 : JsonValue → Bool
  | .num n => n == 10
  | _ => false

/-- Embedding of `ZnunyService._process_incident` (lines 271-325).  The
result is the pair (snapshot of `incident_data` handed to the worker
pool at `submit` time, value returned to the orchestrator).  In the
source these are one and the same dict object: line 320 sets the
`delegated` key after submission; the pair makes both observation points
explicit.  `(none, none)` covers: non-incident type, a failed metadata
fetch, and any exception from the client extraction (the blanket except
of line 323). -/
def process_incident (ticket_id : Int) (session_id ticket_text : String)
    (diagnosis_body type_id : JsonValue)
    (metadata : Option TicketMetadata)
    (clientInfo : Except Unit (List (String × JsonValue)))
    (now_iso : String) : Option IncidentData × Option IncidentData :=
  if isNum10 type_id = false then (none, none)
  else
    match metadata with
    | none => (none, none)
    | some md =>
      match clientInfo with
      | .error _ => (none, none)
      | .ok cinfo =>
        let entity := pyGetD cinfo "entidad" (.str "No identificado")
        let d0 : IncidentData :=
          { ticket_id := ticket_id,
            ticket_number := md.ticket_number,
            title := md.title,
            ticket_text := ticket_text,
            entity := entity,
            diagnostico_inicial := diagnosis_body,
            session_id := session_id,
            queue_id := 1, priority_id := 3, state_id := 4,
            processed_at := now_iso,
            delegated := none }
        (some d0, some { d0 with delegated := some true })

/-- The three-character sequence the source repeats 55 times for its
horizontal rules (the literal is mojibake of a box-drawing character). -/
def boxEq : String := "‚ïê"

/-- The 55-fold repetition `"..." * 55` of lines 428, 454 and of the
long literal lines of `_format_no_logs_found`. -/
def boxEqLine : String := String.join (List.replicate 55 boxEq)

/-- The three-character dash sequence used in the per-error headers. -/
def boxDash : String := "‚îÄ"

/-- Three repetitions of the dash sequence. -/
def boxDash3 : String := boxDash ++ boxDash ++ boxDash

/-- Embedding of `_format_no_logs_found` (lines 462-483): the fallback
article body, with the entity and the initial diagnosis interpolated. -/
def format_no_logs_found (entity diagnostico_inicial : JsonValue) : String :=
  "[Procesado por: Error Log Monitor]\n\n" ++ boxEqLine
  ++ "\nDIAGN√ìSTICO DE INCIDENTE - " ++ pyStr entity
  ++ "\n" ++ boxEqLine
  ++ "\n\n[INFO] No se encontraron errores fatales relacionados con '" ++ pyStr entity
  ++ "' en las ultimas 2 horas.\n\n"
  ++ boxDash3 ++ " Diagn√≥stico Inicial " ++ boxDash3 ++ "\n"
  ++ pyStr diagnostico_inicial
  ++ "\n\n" ++ boxEqLine
  ++ "\nPR√ìXIMOS PASOS\n" ++ boxEqLine
  ++ "\n- Verificar manualmente los logs del servidor.\n- Contactar al cliente para obtener m√°s detalles sobre el problema.\n- Escalar a nivel 2 si el problema persiste.\n"

/-- Lines 437-447 for one element of `diagnosticos[:5]`: the element and
its `log`/`diagnostico` sub-values must be dicts and `mensaje` must be
sliceable, otherwise the iteration raises (AttributeError/TypeError),
which the background task's blanket except turns into no write. -/
def diagElemLines (i : Nat) (diag : JsonValue) : Except Unit (List String) :=
  match diag with
  | .obj dfields =>
    match pyGetD dfields "log" (.obj []), pyGetD dfields "diagnostico" (.obj []) with
    | .obj lf, .obj df =>
      (match pyGetD lf "mensaje" (.str "N/A") with
       | .str ms =>
         .ok [ boxDash3 ++ " Error " ++ toString i ++ " " ++ boxDash3,
               "Tipo: " ++ pyStr (pyGetD df "tipo_error" (.str "Desconocido")),
               "Severidad: " ++ pyStr (pyGetD df "severidad" (.str "N/A")),
               "Mensaje: " ++ String.mk (ms.toList.take 200),
               "Diagn√≥stico: " ++ pyStr (pyGetD df "resumen" (.str "N/A")),
               "Recomendaci√≥n: " ++ pyStr (pyGetD df "recomendacion" (.str "N/A")),
               "" ]
       | .arr l =>
         .ok [ boxDash3 ++ " Error " ++ toString i ++ " " ++ boxDash3,
               "Tipo: " ++ pyStr (pyGetD df "tipo_error" (.str "Desconocido")),
               "Severidad: " ++ pyStr (pyGetD df "severidad" (.str "N/A")),
               "Mensaje: " ++ pyStr (.arr (l.take 200)),
               "Diagn√≥stico: " ++ pyStr (pyGetD df "resumen" (.str "N/A")),
               "Recomendaci√≥n: " ++ pyStr (pyGetD df "recomendacion" (.str "N/A")),
               "" ]
       | _ => .error ())
    | _, _ => .error ()
  | _ => .error ()

/-- The per-element loop of lines 437-447 (enumerate starts at 1). -/
def diagAllLines : Nat → List JsonValue → Except Unit (List String)
  | _, [] => .ok []
  | i, d :: ds =>
    match diagElemLines i d with
    | .error _ => .error ()
    | .ok ls =>
      match diagAllLines (i + 1) ds with
      | .error _ => .error ()
      | .ok rest => .ok (ls ++ rest)

/-- Python `diagnosticos[:5]` together with `len(diagnosticos)`: lists
slice normally; a non-empty string would raise in the loop (its items
have no `.get`), the empty string iterates zero times; every other value
raises at the slice. -/
def diagSlice : JsonValue → Except Unit (List JsonValue × Nat)
  | .arr l => .ok (l.take 5, l.length)
  | .str s => if s.toList.isEmpty then .ok ([], 0) else .error ()
  | _ => .error ()

/-- Embedding of `_format_error_log_response` (lines 417-460) as a
fallible computation: `.error` stands for the exceptions the Python body
can raise on a contract-violating response (they are swallowed by the
background task, which then performs no write). -/
def format_error_log_response (entity : JsonValue)
    (resp : List (String × JsonValue)) : Except Unit String :=
  let logs_count := pyGetD resp "logs_encontrados" (.num 0)
  let diagnosticos := pyGetD resp "diagnosticos" (.arr [])
  let resumen := pyGetD resp "mensaje_resumen" (.str "")
  match diagSlice diagnosticos with
  | .error _ => .error ()
  | .ok (elems, total) =>
    match diagAllLines 1 elems with
    | .error _ => .error ()
    | .ok dlines =>
      match resumen with
      | .str rs =>
        .ok (String.intercalate "\n"
          ([ "[Procesado por: Error Log Monitor]",
             "",
             boxEqLine,
             "DIAGN√ìSTICO DE INCIDENTE - " ++ pyStr entity,
             boxEqLine,
             "",
             "[INFO] Se encontraron " ++ pyStr logs_count
               ++ " errores fatales en las ultimas 2 horas.",
             "" ]
           ++ dlines
           ++ (if total > 5 then
                ["... y " ++ toString (total - 5) ++ " errores adicionales.", ""]
               else [])
           ++ [ boxEqLine, "RESUMEN Y PR√ìXIMOS PASOS", boxEqLine, rs ]))
      | _ => .error ()

/-- Embedding of the background task `_process_incident_async` (lines
327-370): the list of backend writes it performs.  `errorLog = none`
models every failure mode of `_call_error_log` (unset URL, timeout,
connection error, non-2xx, invalid or non-dict JSON body — lines
372-415 return None on each); `some resp` models a received JSON-object
response.  A formatting exception is swallowed by the blanket except of
line 369, producing no write. -/
def process_incident_async (idata : IncidentData)
    (errorLog : Option (List (String × JsonValue))) : List ZnunyWrite :=
  match errorLog with
  | none =>
    [ .articleUpdate idata.ticket_id idata.session_id
        "Diagn√≥stico de Incidente (Sin logs encontrados)"
        (format_no_logs_found idata.entity idata.diagnostico_inicial) 10 ]
  | some resp =>
    match format_error_log_response idata.entity resp with
    | .ok body =>
      [ .articleUpdate idata.ticket_id idata.session_id
          "Diagn√≥stico de Incidente (Error Log)" body 10 ]
    | .error _ => []

/-! ## Orchestrator  (update_service.py, lines 581-693) -/
/-- Result of `_call_multimodal_service` when a response was obtained
(lines 561-565); `None` outcomes are the `Option.none` of the world. -/
structure VisualResult where
  type_id : JsonValue
  diagnosis : JsonValue

/-- The webhook `data` payload fields read at lines 596-601 (a missing
key is `None` = `.null`). -/
structure OrchData where
  titulo : JsonValue
  usuario : JsonValue
  queue_id : JsonValue
  priority_id : JsonValue
  state_id : JsonValue
  subject : JsonValue

/-- Exceptions the orchestration can raise. -/
inductive PyExc where
  | valueError (msg : String)
  | runtimeError (msg : String)
  | attrError
deriving DecidableEq

/-- The dict produced by `_generate_diagnosis` (lines 254-268). -/
structure GenDiagnosis where
  type_id : JsonValue
  requires_visual : JsonValue
  diagnostico : JsonValue

/-- Embedding of `ZnunyService._generate_diagnosis` (lines 254-268): the
string return of the agent becomes a dict with `requires_visual: False`;
a dict return is read back with `.get` — note that the dict built by
`AgentService.diagnose_ticket` only ever carries the keys `type_id` and
`diagnostico`, so the `.get("requires_visual", False)` of line 266 falls
back to False. -/
def generate_diagnosis (response_text : String) : Except Unit GenDiagnosis :=
  match diagnose_ticket response_text with
  | .retStr s =>
    .ok { type_id := .null, requires_visual := .bool false, diagnostico := .str s }
  | .retDict d =>
    .ok { type_id := pyGet d "type_id",
          requires_visual := pyGetD d "requires_visual" (.bool false),
          diagnostico := pyGet d "diagnostico" }
  | .attrError => .error ()

/-- The empty-diagnosis gate of lines 622-623:
`if not diagnosis_body or not diagnosis_body.strip(): raise RuntimeError`.
A falsy value raises at once; a truthy non-string has no `.strip()`
(AttributeError); a truthy string raises when it strips to empty. -/
def emptyDiagnosisCheck (d : JsonValue) : Except PyExc Unit :=
  if truthy d = false then .error (.runtimeError "AI returned empty diagnosis.")
  else
    match d with
    | .str s =>
      if (pyTrim s).toList.isEmpty then .error (.runtimeError "AI returned empty diagnosis.")
      else .ok ()
    | _ => .error .attrError

/-- All external outcomes one orchestration run can observe. -/
structure OrchWorld where
  ticket_id : Int
  session_id : String
  data : OrchData
  articles : Option (List Article)
  modelResponse : String
  metadata : Option TicketMetadata
  clientInfo : Except Unit (List (String × JsonValue))
  multimodal : Option VisualResult
  updateError : Option String
  now_iso : String

/-- The structured result dict of a completed run (steps 8 and 10; the
`update_response`/`message` payload fields carry no logic and are not
modelled). -/
structure OrchResult where
  ok : Bool
  ticket_id : Int
  type_id_from_ia : JsonValue
  diagnosis_body : JsonValue
  delegated_to_error_log : Bool
  incident_data : Option IncidentData

/-- Observable outcome of one `diagnose_and_update_ticket` run: the
returned value or raised exception, the synchronous backend writes made,
the number of visual-analysis calls made, and the incident record
submitted to the worker pool (if any). -/
structure OrchOutcome where
  result : Except PyExc OrchResult
  syncWrites : List ZnunyWrite
  multimodalCalls : Nat
  incidentSubmitted : Option IncidentData

/-- Step 9 (lines 660-679): the single synchronous `update_ticket` call
with the service-identifier header, then the error check on its
response.  The parameter defaults of lines 596-601 are computed here
(they are pure functions of the webhook data). -/
def orch_write_step (w : OrchWorld) (diagnosis_body type_id_from_ia : JsonValue)
    (mm : Nat) (submitted incident_data : Option IncidentData) : OrchOutcome :=
  let body := "[Procesado por: mod_agentes]\n\n" ++ pyStr diagnosis_body
  let wcall : ZnunyWrite := .ticketUpdate w.ticket_id w.session_id
    (pyOr w.data.titulo (.str ("Ticket Update " ++ toString w.ticket_id)))
    (pyOr w.data.usuario (.str ""))
    (pyOr w.data.queue_id (.num 1))
    (pyOr w.data.priority_id (.num 3))
    (pyOr w.data.state_id (.num 4))
    (pyOr w.data.subject (.str "Automatic Diagnosis (AI)"))
    body type_id_from_ia
  match w.updateError with
  | some e =>
    { result := .error (.runtimeError ("Failed to update Znuny: " ++ e)),
      syncWrites := [wcall], multimodalCalls := mm, incidentSubmitted := submitted }
  | none =>
    { result := .ok { ok := true, ticket_id := w.ticket_id,
                      type_id_from_ia := type_id_from_ia,
                      diagnosis_body := diagnosis_body,
                      delegated_to_error_log := false,
                      incident_data := incident_data },
      syncWrites := [wcall], multimodalCalls := mm, incidentSubmitted := submitted }

/-- Embedding of the orchestrator `diagnose_and_update_ticket` (lines
581-693).  The session is the one handed in by the controller; the RAG
tool configuration (step 4) influences no control flow and is not
modelled. -/
def diagnose_and_update_ticket (w : OrchWorld) : OrchOutcome :=
  match extract_relevant_text w.articles with
  | none =>
    { result := .error (.valueError "No ticket text found (latest article)."),
      syncWrites := [], multimodalCalls := 0, incidentSubmitted := none }
  | some ticket_text =>
    match generate_diagnosis w.modelResponse with
    | .error _ =>
      { result := .error .attrError,
        syncWrites := [], multimodalCalls := 0, incidentSubmitted := none }
    | .ok dr =>
      match emptyDiagnosisCheck dr.diagnostico with
      | .error e =>
        { result := .error e,
          syncWrites := [], multimodalCalls := 0, incidentSubmitted := none }
      | .ok _ =>
        let vstep : JsonValue × JsonValue × Nat :=
          if truthy dr.requires_visual then
            match w.multimodal with
            | some vr => (vr.diagnosis, pyOr vr.type_id dr.type_id, 1)
            | none => (dr.diagnostico, dr.type_id, 1)
          else (dr.diagnostico, dr.type_id, 0)
        let pinc := process_incident w.ticket_id w.session_id ticket_text
          vstep.1 vstep.2.1 w.metadata w.clientInfo w.now_iso
        match pinc.2 with
        | some idata =>
          if (match idata.delegated with | some b => b | none => false) then
            { result := .ok { ok := true, ticket_id := w.ticket_id,
                              type_id_from_ia := vstep.2.1,
                              diagnosis_body := vstep.1,
                              delegated_to_error_log := true,
                              incident_data := some idata },
              syncWrites := [], multimodalCalls := vstep.2.2,
              incidentSubmitted := pinc.1 }
          else orch_write_step w vstep.1 vstep.2.1 vstep.2.2 pinc.1 (some idata)
        | none => orch_write_step w vstep.1 vstep.2.1 vstep.2.2 pinc.1 none

/-! ## Concrete fixtures for witnesses and counterexamples -/
/-- A single genuine customer article. -/
def artHello : Article :=
  { CreateTime := some 1, ArticleID := some 1, SenderType := "customer",
    Subject := "hi", Body := "printer jam" }

/-- Sample ticket metadata. -/
def mdSample : TicketMetadata := { ticket_number := .str "2024", title := .str "T" }

/-- A webhook payload carrying none of the optional fields. -/
def dataEmpty : OrchData :=
  { titulo := .null, usuario := .null, queue_id := .null,
    priority_id := .null, state_id := .null, subject := .null }

/-- World for the C2 witness: the model answers whitespace only. -/
def c2World : OrchWorld :=
  { ticket_id := 7, session_id := "sess", data := dataEmpty,
    articles := some [artHello], modelResponse := " ",
    metadata := none, clientInfo := .error (),
    multimodal := none, updateError := none, now_iso := "ts" }

/-- World for the C3 witness, incident path: the model classifies the
ticket as an incident (type 10) and the incident externals succeed. -/
def c3WorldD : OrchWorld :=
  { ticket_id := 7, session_id := "sess", data := dataEmpty,
    articles := some [artHello],
    modelResponse := "\x7b\"type_id\":10,\"diagnostico\":\"hw\"\x7d",
    metadata := some mdSample,
    clientInfo := .ok [("entidad", .str "ACME")],
    multimodal := none, updateError := none, now_iso := "2026-01-01T00:00:00Z" }

/-- The incident record the C3 incident world submits to the pool. -/
def c3IdataD : IncidentData :=
  { ticket_id := 7, ticket_number := .str "2024", title := .str "T",
    ticket_text := "Subject: hi\n---\nBody:\nprinter jam",
    entity := .str "ACME", diagnostico_inicial := .str "hw",
    session_id := "sess", queue_id := 1, priority_id := 3, state_id := 4,
    processed_at := "2026-01-01T00:00:00Z", delegated := none }

/-- World for the C3 witness, non-incident path (type 14). -/
def c3WorldN : OrchWorld :=
  { ticket_id := 7, session_id := "sess", data := dataEmpty,
    articles := some [artHello],
    modelResponse := "\x7b\"type_id\":14,\"diagnostico\":\"reset password\"\x7d",
    metadata := none, clientInfo := .error (),
    multimodal := none, updateError := none, now_iso := "2026-01-01T00:00:00Z" }

/-- A contract-conforming log-correlation response. -/
def c3Resp : List (String × JsonValue) :=
  [("logs_encontrados", .num 2),
   ("diagnosticos", .arr [ .obj [("log", .obj [("mensaje", .str "boom")]),
                                  ("diagnostico", .obj [("tipo_error", .str "crash")])] ]),
   ("mensaje_resumen", .str "resumen final")]

/-- Value of a successful `Except`, with a default. -/
def exceptGetD (e : Except Unit String) (dflt : String) : String :=
  match e with
  | .ok s => s
  | .error _ => dflt

/-- The formatted report body for the C3 response. -/
def c3Body : String := exceptGetD (format_error_log_response (.str "ACME") c3Resp) ""

/-- World for C4: the model explicitly asks for visual analysis and the
visual collaborator would answer, yet the branch is dead. -/
def c4World : OrchWorld :=
  { ticket_id := 7, session_id := "sess", data := dataEmpty,
    articles := some [artHello],
    modelResponse := "\x7b\"type_id\":14,\"diagnostico\":\"x\",\"requires_visual\":true\x7d",
    metadata := none, clientInfo := .error (),
    multimodal := some { type_id := .num 19, diagnosis := .str "visual diagnosis" },
    updateError := none, now_iso := "ts" }

/-- World for C5: the model marks the ticket as a security emergency with
criticality 9. -/
def c5World : OrchWorld :=
  { ticket_id := 7, session_id := "sess", data := dataEmpty,
    articles := some [artHello],
    modelResponse :=
      "\x7b\"type_id\":14,\"diagnostico\":\"x\",\"criticality_score\":9,\"is_security_alert\":true\x7d",
    metadata := none, clientInfo := .error (),
    multimodal := none, updateError := none, now_iso := "ts" }

/-- Incident record at submission time for C8. -/
def c8d0 : IncidentData :=
  { ticket_id := 7, ticket_number := .str "2024", title := .str "T",
    ticket_text := "tt", entity := .str "ACME", diagnostico_inicial := .str "d",
    session_id := "sess", queue_id := 1, priority_id := 3, state_id := 4,
    processed_at := "ts", delegated := none }

/-- The same record after line 320 set the delegated flag. -/
def c8d1 : IncidentData := { c8d0 with delegated := some true }

/-! ## Lemmas and claim theorems -/

theorem pySorted_sorted (l : List Article) : List.Sorted keyLe (pySorted l) :=
  List.sorted_insertionSort keyLe l

theorem pySorted_perm (l : List Article) : List.Perm (pySorted l) l :=
  List.perm_insertionSort keyLe l

theorem pySorted_head_min (l : List Article) (a : Article) (rest : List Article)
    (h : pySorted l = a :: rest) : ∀ b ∈ l, pyKey a ≤ pyKey b := by
  intro b hb
  have hb' : b ∈ pySorted l := ((pySorted_perm l).mem_iff).2 hb
  rw [h] at hb'
  rcases List.mem_cons.mp hb' with h1 | h2
  · subst h1
    exact Nat.le_refl _
  · have hs := pySorted_sorted l
    rw [h] at hs
    exact List.rel_of_sorted_cons hs b h2

theorem pySorted_head_mem (l : List Article) (a : Article) (rest : List Article)
    (h : pySorted l = a :: rest) : a ∈ l := by
  have : a ∈ pySorted l := by
    rw [h]
    exact List.mem_cons_self a rest
  exact ((pySorted_perm l).mem_iff).1 this

/-- C1 counterexample: both messages are customer messages and not
automatic, the second is the most recent (larger (created_at, id)), yet
the selector returns the formatting of the FIRST message, not of the
most recent customer message as the claim states. -/
theorem C1_first_not_most_recent_cex :
    c1m1.SenderType = "customer" ∧ c1m2.SenderType = "customer"
    ∧ isAutomaticMsg c1m1 = false ∧ isAutomaticMsg c1m2 = false
    ∧ pyKey c1m1 < pyKey c1m2
    ∧ extract_relevant_text (some [c1m1, c1m2]) = some (formatArticle c1m1)
    ∧ formatArticle c1m1 ≠ formatArticle c1m2 := by
  decide

/-- C1 amended: for every non-empty article list the selector returns the
FIRST article of the ascending stable order on the key
`CreateTime or ArticleID or 0` — irrespective of sender kind or automatic
classification — formatted as "Subject: ...\n---\nBody:\n...", or `None`
when that first article has an empty subject and body.  The returned
article is a key-minimal element of the input. -/
theorem C1_amended_first_sorted_article (arts : List Article) (a : Article)
    (rest : List Article) (h : pySorted arts = a :: rest) :
    a ∈ arts ∧ (∀ b ∈ arts, pyKey a ≤ pyKey b)
    ∧ extract_relevant_text (some arts) =
        (if a.Subject.toList.isEmpty && a.Body.toList.isEmpty then none
         else some (formatArticle a)) := by
  refine ⟨pySorted_head_mem arts a rest h, pySorted_head_min arts a rest h, ?_⟩
  have hne : arts.isEmpty = false := by
    cases harts : arts with
    | nil =>
      rw [harts] at h
      simp [pySorted, List.insertionSort] at h
    | cons x xs => rfl
  simp only [extract_relevant_text, hne, h]
  rfl

/-- Witness for the amended C1 theorem at a concrete two-article list. -/
theorem C1_amended_first_sorted_article_witness :
    extract_relevant_text (some [c1m2, c1m1]) = some (formatArticle c1m1) := by
  have h : pySorted [c1m2, c1m1] = c1m1 :: [c1m2] := by decide
  have := C1_amended_first_sorted_article [c1m2, c1m1] c1m1 [c1m2] h
  rw [this.2.2]
  decide

/-- C7 counterexample: a non-empty list containing a message with
non-empty subject and body on which the selector still returns none,
because only the FIRST sorted article is inspected. -/
theorem C7_none_on_nonempty_cex :
    extract_relevant_text (some [c7m1, c7m2]) = none
    ∧ ([c7m1, c7m2] : List Article) ≠ []
    ∧ c7m2 ∈ [c7m1, c7m2] ∧ c7m2.Body ≠ "" := by
  decide

/-- C7 amended: the selector returns none exactly when the input is not a
list, is empty, or the FIRST article of the sorted order has both an
empty subject and an empty body (the rest of the list is never
inspected). -/
theorem C7_amended_none_characterisation (oarts : Option (List Article)) :
    (extract_relevant_text oarts = none ↔
      match oarts with
      | none => True
      | some arts =>
        match pySorted arts with
        | [] => True
        | a :: _ => a.Subject.toList.isEmpty = true ∧ a.Body.toList.isEmpty = true) := by
  cases oarts with
  | none => simp [extract_relevant_text]
  | some arts =>
    cases harts : arts with
    | nil => simp [extract_relevant_text, pySorted, List.insertionSort]
    | cons x xs =>
      simp only [extract_relevant_text, List.isEmpty_cons]
      cases hs : pySorted (x :: xs) with
      | nil => simp
      | cons a t =>
        by_cases hempty : a.Subject.toList.isEmpty && a.Body.toList.isEmpty
        · simp [hempty]
        · simp [hempty]

theorem string_toList_isEmpty_iff (s : String) : s.toList.isEmpty = true ↔ s = "" := by
  constructor
  · intro h
    cases s with
    | mk data =>
      cases data with
      | nil => rfl
      | cons c cs => simp [String.toList] at h
  · intro h
    rw [h]
    rfl

theorem data_eq_nil_of_isEmpty (s : String) (h : s.toList.isEmpty = true) : s.data = [] := by
  cases s with
  | mk data =>
    cases data with
    | nil => rfl
    | cons c cs => simp [String.toList] at h

theorem data_ne_nil_of_ne_empty (s : String) (h : s ≠ "") : ¬ s.data = [] := by
  intro hd
  apply h
  cases s with
  | mk data =>
    cases hd
    rfl

/-- C6: the session operation returns an overriding environment value
verbatim with no TTL check and no authentication call; otherwise a fresh
cached value is returned with no authentication call; otherwise exactly
one authentication call is made, a success caches the new pair and
returns the id, and a failure raises leaving the cached value and
timestamp unchanged. -/
theorem C6_session_cache (e : SessionEnv) (st : SessionState) (now : Int)
    (login : Except Unit String) :
    (∀ s, envSid e = some s → s ≠ "" →
        get_or_create_session_id e st now login =
          { result := .ok s, state := st, authCalls := 0 })
    ∧ (overrideSet e = false →
        ∀ c, st.cached_session_id = some c → c ≠ "" →
          now - st.cached_session_ts < e.session_ttl →
          get_or_create_session_id e st now login =
            { result := .ok c, state := st, authCalls := 0 })
    ∧ (overrideSet e = false → cacheFresh e st now = false →
        (get_or_create_session_id e st now login).authCalls = 1
        ∧ (∀ sid, login = .ok sid →
            get_or_create_session_id e st now login =
              { result := .ok sid,
                state := { cached_session_id := some sid, cached_session_ts := now },
                authCalls := 1 })
        ∧ (∀ u, login = .error u →
            get_or_create_session_id e st now login =
              { result := .error (), state := st, authCalls := 1 })) := by
  refine ⟨?_, ?_, ?_⟩
  · intro s hs hne
    simp [get_or_create_session_id, hs, data_ne_nil_of_ne_empty s hne]
  · intro hov c hc hcne httl
    have hfresh : cacheFresh e st now = true := by
      simp [cacheFresh, hc, httl, data_ne_nil_of_ne_empty c hcne]
    cases he : envSid e with
    | none => simp [get_or_create_session_id, he, hfresh, hc]
    | some s =>
      have hse : s.toList.isEmpty = true := by
        have h2 : pyEnvTruthy (envSid e) = false := hov
        rw [he] at h2
        simpa [pyEnvTruthy] using h2
      simp [get_or_create_session_id, he, data_eq_nil_of_isEmpty s hse, hfresh, hc]
  · intro hov hfresh
    have main : get_or_create_session_id e st now login = sessionLoginStep st now login := by
      cases he : envSid e with
      | none => simp [get_or_create_session_id, he, hfresh]
      | some s =>
        have hse : s.toList.isEmpty = true := by
          have h2 : pyEnvTruthy (envSid e) = false := hov
          rw [he] at h2
          simpa [pyEnvTruthy] using h2
        simp [get_or_create_session_id, he, data_eq_nil_of_isEmpty s hse, hfresh]
    refine ⟨?_, ?_, ?_⟩
    · rw [main]
      cases login <;> rfl
    · intro sid hl
      rw [main, hl]
      rfl
    · intro u hl
      rw [main, hl]
      rfl

/-- Witness for C6 exercising all three branches at concrete inputs. -/
theorem C6_session_cache_witness :
    get_or_create_session_id c6EnvOverride c6StFresh 5 (.error ()) =
      { result := .ok "sid-env", state := c6StFresh, authCalls := 0 }
    ∧ get_or_create_session_id c6EnvPlain c6StFresh 5 (.error ()) =
      { result := .ok "sid-c", state := c6StFresh, authCalls := 0 }
    ∧ get_or_create_session_id c6EnvPlain c6StEmpty 5 (.ok "new") =
      { result := .ok "new",
        state := { cached_session_id := some "new", cached_session_ts := 5 },
        authCalls := 1 }
    ∧ get_or_create_session_id c6EnvPlain c6StEmpty 5 (.error ()) =
      { result := .error (), state := c6StEmpty, authCalls := 1 } := by
  refine ⟨?_, ?_, ?_, ?_⟩
  · exact (C6_session_cache c6EnvOverride c6StFresh 5 (.error ())).1 "sid-env" rfl (by decide)
  · exact (C6_session_cache c6EnvPlain c6StFresh 5 (.error ())).2.1 (by decide) "sid-c" rfl
      (by decide) (by decide)
  · exact ((C6_session_cache c6EnvPlain c6StEmpty 5 (.ok "new")).2.2 (by decide)
      (by decide)).2.1 "new" rfl
  · exact ((C6_session_cache c6EnvPlain c6StEmpty 5 (.error ())).2.2 (by decide)
      (by decide)).2.2 () rfl

/-! ## Structural lemmas about the pipeline -/
theorem diagnose_ticket_dict_keys (r : String) (d : List (String × JsonValue))
    (h : diagnose_ticket r = .retDict d) :
    (∃ t v, d = [("type_id", t), ("diagnostico", v)])
    ∨ (∃ s, d = [("diagnostico", .str s), ("type_id", .null)]) := by
  unfold diagnose_ticket at h
  by_cases h0 : r.toList.isEmpty
  · rw [if_pos h0] at h
    exact DiagResult.noConfusion h
  · rw [if_neg h0] at h
    cases hj : json_loads (cleanResponse r) with
    | none =>
      simp only [hj] at h
      injection h with h1
      exact Or.inr ⟨pyTrim r, h1.symm⟩
    | some v =>
      cases v with
      | obj data =>
        simp only [hj] at h
        split at h
        all_goals split at h
        all_goals
          first
            | exact DiagResult.noConfusion h
            | (injection h with h1; exact Or.inl ⟨_, _, h1.symm⟩)
      | null => simp only [hj] at h; exact DiagResult.noConfusion h
      | bool b => simp only [hj] at h; exact DiagResult.noConfusion h
      | num n => simp only [hj] at h; exact DiagResult.noConfusion h
      | str s2 => simp only [hj] at h; exact DiagResult.noConfusion h
      | arr l => simp only [hj] at h; exact DiagResult.noConfusion h

theorem generate_diagnosis_requires_visual_false (r : String) (g : GenDiagnosis)
    (h : generate_diagnosis r = .ok g) : g.requires_visual = .bool false := by
  cases hd : diagnose_ticket r with
  | retStr s =>
    unfold generate_diagnosis at h
    rw [hd] at h
    injection h with h1
    rw [← h1]
  | retDict d =>
    unfold generate_diagnosis at h
    rw [hd] at h
    injection h with h1
    rw [← h1]
    rcases diagnose_ticket_dict_keys r d hd with ⟨t, v, rfl⟩ | ⟨s, rfl⟩ <;> rfl
  | attrError =>
    unfold generate_diagnosis at h
    rw [hd] at h
    exact Except.noConfusion h

theorem process_incident_cases (tid : Int) (sid tt : String) (db ty : JsonValue)
    (md : Option TicketMetadata) (ci : Except Unit (List (String × JsonValue)))
    (niso : String) :
    process_incident tid sid tt db ty md ci niso = (none, none)
    ∨ ∃ d0, process_incident tid sid tt db ty md ci niso =
        (some d0, some { d0 with delegated := some true }) ∧ d0.delegated = none := by
  unfold process_incident
  split
  · exact Or.inl rfl
  · cases md with
    | none => exact Or.inl rfl
    | some m =>
      cases ci with
      | error u => exact Or.inl rfl
      | ok cinfo => exact Or.inr ⟨_, rfl, rfl⟩

theorem orch_write_step_submitted (w : OrchWorld) (db ty : JsonValue) (m : Nat)
    (sub inc : Option IncidentData) :
    (orch_write_step w db ty m sub inc).incidentSubmitted = sub := by
  unfold orch_write_step
  cases w.updateError <;> rfl

theorem orch_write_step_mm (w : OrchWorld) (db ty : JsonValue) (m : Nat)
    (sub inc : Option IncidentData) :
    (orch_write_step w db ty m sub inc).multimodalCalls = m := by
  unfold orch_write_step
  cases w.updateError <;> rfl

theorem orch_write_step_writes (w : OrchWorld) (db ty : JsonValue) (m : Nat)
    (sub inc : Option IncidentData) :
    (orch_write_step w db ty m sub inc).syncWrites =
      [ .ticketUpdate w.ticket_id w.session_id
          (pyOr w.data.titulo (.str ("Ticket Update " ++ toString w.ticket_id)))
          (pyOr w.data.usuario (.str ""))
          (pyOr w.data.queue_id (.num 1))
          (pyOr w.data.priority_id (.num 3))
          (pyOr w.data.state_id (.num 4))
          (pyOr w.data.subject (.str "Automatic Diagnosis (AI)"))
          ("[Procesado por: mod_agentes]\n\n" ++ pyStr db) ty ] := by
  unfold orch_write_step
  cases w.updateError <;> rfl

theorem emptyDiagnosisCheck_str_empty (s : String)
    (he : (pyTrim s).toList.isEmpty = true) :
    emptyDiagnosisCheck (.str s) =
      .error (.runtimeError "AI returned empty diagnosis.") := by
  by_cases h0 : truthy (JsonValue.str s) = false
  · unfold emptyDiagnosisCheck
    rw [if_pos h0]
  · unfold emptyDiagnosisCheck
    rw [if_neg h0]
    simp only [he, if_true]

/-- Exhaustive case split of one orchestration run: it fails on article
extraction, fails on diagnosis generation (uncaught AttributeError),
fails the empty-diagnosis gate, delegates an incident, or performs the
synchronous write step — and the visual-analysis branch is dead in all
of them (`requires_visual` is always False after `_generate_diagnosis`). -/
theorem diagnose_and_update_cases (w : OrchWorld) :
    (extract_relevant_text w.articles = none
      ∧ diagnose_and_update_ticket w =
        { result := .error (.valueError "No ticket text found (latest article)."),
          syncWrites := [], multimodalCalls := 0, incidentSubmitted := none })
    ∨ (generate_diagnosis w.modelResponse = .error ()
      ∧ diagnose_and_update_ticket w =
        { result := .error .attrError, syncWrites := [], multimodalCalls := 0,
          incidentSubmitted := none })
    ∨ (∃ dr e, generate_diagnosis w.modelResponse = .ok dr
        ∧ emptyDiagnosisCheck dr.diagnostico = .error e
        ∧ diagnose_and_update_ticket w =
          { result := .error e, syncWrites := [], multimodalCalls := 0,
            incidentSubmitted := none })
    ∨ (∃ t dr d0, extract_relevant_text w.articles = some t
        ∧ generate_diagnosis w.modelResponse = .ok dr
        ∧ emptyDiagnosisCheck dr.diagnostico = .ok ()
        ∧ process_incident w.ticket_id w.session_id t dr.diagnostico dr.type_id
            w.metadata w.clientInfo w.now_iso =
            (some d0, some { d0 with delegated := some true })
        ∧ diagnose_and_update_ticket w =
          { result := .ok { ok := true, ticket_id := w.ticket_id,
                            type_id_from_ia := dr.type_id,
                            diagnosis_body := dr.diagnostico,
                            delegated_to_error_log := true,
                            incident_data := some { d0 with delegated := some true } },
            syncWrites := [], multimodalCalls := 0, incidentSubmitted := some d0 })
    ∨ (∃ t dr, extract_relevant_text w.articles = some t
        ∧ generate_diagnosis w.modelResponse = .ok dr
        ∧ emptyDiagnosisCheck dr.diagnostico = .ok ()
        ∧ process_incident w.ticket_id w.session_id t dr.diagnostico dr.type_id
            w.metadata w.clientInfo w.now_iso = (none, none)
        ∧ diagnose_and_update_ticket w =
            orch_write_step w dr.diagnostico dr.type_id 0 none none) := by
  cases hext : extract_relevant_text w.articles with
  | none =>
    left
    refine ⟨rfl, ?_⟩
    unfold diagnose_and_update_ticket
    simp only [hext]
  | some t =>
    cases hgen : generate_diagnosis w.modelResponse with
    | error u =>
      right; left
      cases u
      refine ⟨rfl, ?_⟩
      unfold diagnose_and_update_ticket
      simp only [hext, hgen]
    | ok dr =>
      have hv : truthy dr.requires_visual = false := by
        rw [generate_diagnosis_requires_visual_false w.modelResponse dr hgen]
        rfl
      cases hchk : emptyDiagnosisCheck dr.diagnostico with
      | error e =>
        right; right; left
        refine ⟨dr, e, rfl, hchk, ?_⟩
        unfold diagnose_and_update_ticket
        simp only [hext, hgen, hchk]
      | ok u =>
        cases u
        rcases process_incident_cases w.ticket_id w.session_id t dr.diagnostico
          dr.type_id w.metadata w.clientInfo w.now_iso with hp | ⟨d0, hp, hd0⟩
        · right; right; right; right
          refine ⟨t, dr, rfl, rfl, hchk, hp, ?_⟩
          unfold diagnose_and_update_ticket
          simp only [hext, hgen, hchk, hv, Bool.false_eq_true, if_false, hp]
        · right; right; right; left
          refine ⟨t, dr, d0, rfl, rfl, hchk, hp, ?_⟩
          unfold diagnose_and_update_ticket
          simp only [hext, hgen, hchk, hv, Bool.false_eq_true, if_false, hp, if_true]

/-! ## Claim theorems -/
/-- C2: whenever the run reaches the diagnosis step and the final
diagnosis text is an empty or whitespace-only string — whether produced
from the JSON `diagnostico` field or by the raw-text fallback — the
orchestration aborts with the fatal empty-diagnosis error
(`RuntimeError("AI returned empty diagnosis.")`, the code's realisation
of the spec's DiagnosisError), makes no backend write, no visual call
and submits no background task. -/
theorem C2_empty_diagnosis_fatal (w : OrchWorld) (g : GenDiagnosis) (s : String)
    (hart : extract_relevant_text w.articles ≠ none)
    (hg : generate_diagnosis w.modelResponse = .ok g)
    (hd : g.diagnostico = .str s)
    (he : (pyTrim s).toList.isEmpty = true) :
    diagnose_and_update_ticket w =
      { result := .error (.runtimeError "AI returned empty diagnosis."),
        syncWrites := [], multimodalCalls := 0, incidentSubmitted := none } := by
  have hchk : emptyDiagnosisCheck g.diagnostico =
      .error (.runtimeError "AI returned empty diagnosis.") := by
    rw [hd]
    exact emptyDiagnosisCheck_str_empty s he
  rcases diagnose_and_update_cases w with ⟨h1, ho⟩ | ⟨h1, ho⟩ | ⟨dr, e, h1, h2, ho⟩
    | ⟨t, dr, d0, h1, h2, h3, hp, ho⟩ | ⟨t, dr, h1, h2, h3, hp, ho⟩
  · exact absurd h1 hart
  · rw [hg] at h1
    exact Except.noConfusion h1
  · injection hg.symm.trans h1 with hge
    subst hge
    injection hchk.symm.trans h2 with he2
    subst he2
    exact ho
  · injection hg.symm.trans h2 with hge
    subst hge
    exact Except.noConfusion (hchk.symm.trans h3)
  · injection hg.symm.trans h2 with hge
    subst hge
    exact Except.noConfusion (hchk.symm.trans h3)

/-- Witness for C2 at the whitespace-only model response. -/
theorem C2_empty_diagnosis_fatal_witness :
    diagnose_and_update_ticket c2World =
      { result := .error (.runtimeError "AI returned empty diagnosis."),
        syncWrites := [], multimodalCalls := 0, incidentSubmitted := none } :=
  C2_empty_diagnosis_fatal c2World
    { type_id := .null, requires_visual := .bool false, diagnostico := .str "" } ""
    (by decide) rfl rfl rfl

/-- C3: per orchestration run, a delegated incident makes zero
synchronous ticket-update calls and its background task makes exactly
one — the formatted report on a completed (formattable) log-correlation
response, the fixed no-logs fallback body on failure/timeout — while a
non-delegated run that reaches the write step makes exactly one
synchronous ticket-update call. -/
theorem C3_write_count_invariant (w : OrchWorld) :
    (∀ idata, (diagnose_and_update_ticket w).incidentSubmitted = some idata →
      (diagnose_and_update_ticket w).syncWrites = []
      ∧ process_incident_async idata none =
          [ .articleUpdate idata.ticket_id idata.session_id
              "Diagn√≥stico de Incidente (Sin logs encontrados)"
              (format_no_logs_found idata.entity idata.diagnostico_inicial) 10 ]
      ∧ (∀ resp body, format_error_log_response idata.entity resp = .ok body →
          process_incident_async idata (some resp) =
            [ .articleUpdate idata.ticket_id idata.session_id
                "Diagn√≥stico de Incidente (Error Log)" body 10 ]))
    ∧ (∀ t g, extract_relevant_text w.articles = some t →
        generate_diagnosis w.modelResponse = .ok g →
        emptyDiagnosisCheck g.diagnostico = .ok () →
        (diagnose_and_update_ticket w).incidentSubmitted = none →
        (diagnose_and_update_ticket w).syncWrites.length = 1) := by
  constructor
  · intro idata hsub
    refine ⟨?_, rfl, ?_⟩
    · rcases diagnose_and_update_cases w with ⟨h1, ho⟩ | ⟨h1, ho⟩ | ⟨dr, e, h1, h2, ho⟩
        | ⟨t, dr, d0, h1, h2, h3, hp, ho⟩ | ⟨t, dr, h1, h2, h3, hp, ho⟩
      · rw [ho] at hsub
        exact Option.noConfusion hsub
      · rw [ho] at hsub
        exact Option.noConfusion hsub
      · rw [ho] at hsub
        exact Option.noConfusion hsub
      · rw [ho]
      · rw [ho, orch_write_step_submitted] at hsub
        exact Option.noConfusion hsub
    · intro resp body hfmt
      simp only [process_incident_async, hfmt]
  · intro t g hext hgen hchk hsub
    rcases diagnose_and_update_cases w with ⟨h1, ho⟩ | ⟨h1, ho⟩ | ⟨dr, e, h1, h2, ho⟩
      | ⟨t2, dr, d0, h1, h2, h3, hp, ho⟩ | ⟨t2, dr, h1, h2, h3, hp, ho⟩
    · rw [hext] at h1
      exact Option.noConfusion h1
    · rw [hgen] at h1
      exact Except.noConfusion h1
    · injection hgen.symm.trans h1 with hge
      subst hge
      exact Except.noConfusion (hchk.symm.trans h2)
    · rw [ho] at hsub
      exact Option.noConfusion hsub
    · rw [ho, orch_write_step_writes]
      rfl

/-- Witness for C3: the incident world delegates with zero synchronous
writes and its background task performs exactly one write in both the
fallback and the report case; the non-incident world makes exactly one
synchronous write. -/
theorem C3_write_count_invariant_witness :
    (diagnose_and_update_ticket c3WorldD).syncWrites = []
    ∧ process_incident_async c3IdataD none =
        [ .articleUpdate 7 "sess" "Diagn√≥stico de Incidente (Sin logs encontrados)"
            (format_no_logs_found (.str "ACME") (.str "hw")) 10 ]
    ∧ process_incident_async c3IdataD (some c3Resp) =
        [ .articleUpdate 7 "sess" "Diagn√≥stico de Incidente (Error Log)" c3Body 10 ]
    ∧ (diagnose_and_update_ticket c3WorldN).syncWrites.length = 1 := by
  have hD := (C3_write_count_invariant c3WorldD).1 c3IdataD rfl
  refine ⟨hD.1, hD.2.1, hD.2.2 c3Resp c3Body rfl, ?_⟩
  exact (C3_write_count_invariant c3WorldN).2 "Subject: hi\n---\nBody:\nprinter jam"
    { type_id := .num 14, requires_visual := .bool false,
      diagnostico := .str "reset password" }
    rfl rfl rfl rfl

/-- C4: a model response that parses to a JSON object with
requires_visual true does NOT make the pipeline call the visual-analysis
collaborator: `AgentService.diagnose_ticket` drops the field, so
`_generate_diagnosis` always reports requires_visual False and the
multimodal branch of step 6 is dead — zero visual calls in every run,
even with a willing collaborator, and the classic diagnosis is kept. -/
theorem C4_visual_branch_never_taken :
    json_loads (cleanResponse c4World.modelResponse) =
      some (.obj [("type_id", .num 14), ("diagnostico", .str "x"),
                  ("requires_visual", .bool true)])
    ∧ generate_diagnosis c4World.modelResponse =
        .ok { type_id := .num 14, requires_visual := .bool false, diagnostico := .str "x" }
    ∧ (diagnose_and_update_ticket c4World).multimodalCalls = 0
    ∧ (diagnose_and_update_ticket c4World).result =
        .ok { ok := true, ticket_id := 7, type_id_from_ia := .num 14,
              diagnosis_body := .str "x", delegated_to_error_log := false,
              incident_data := none }
    ∧ (∀ w : OrchWorld, (diagnose_and_update_ticket w).multimodalCalls = 0) := by
  refine ⟨rfl, rfl, rfl, rfl, ?_⟩
  intro w
  rcases diagnose_and_update_cases w with ⟨h1, ho⟩ | ⟨h1, ho⟩ | ⟨dr, e, h1, h2, ho⟩
    | ⟨t, dr, d0, h1, h2, h3, hp, ho⟩ | ⟨t, dr, h1, h2, h3, hp, ho⟩
  · rw [ho]
  · rw [ho]
  · rw [ho]
  · rw [ho]
  · rw [ho, orch_write_step_mm]

/-- C5 counterexample: on a response with criticality_score 9 and
is_security_alert true, the write's body is exactly the service header
and the diagnosis — no emergency-protocol banner is prepended — and its
subject is exactly the default, with no critical-alert prefix. -/
theorem C5_no_emergency_banner_cex :
    json_loads (cleanResponse c5World.modelResponse) =
      some (.obj [("type_id", .num 14), ("diagnostico", .str "x"),
                  ("criticality_score", .num 9), ("is_security_alert", .bool true)])
    ∧ (diagnose_and_update_ticket c5World).syncWrites =
        [ .ticketUpdate 7 "sess" (.str "Ticket Update 7") (.str "") (.num 1) (.num 3)
            (.num 4) (.str "Automatic Diagnosis (AI)")
            "[Procesado por: mod_agentes]\n\nx" (.num 14) ]
    ∧ (diagnose_and_update_ticket c5World).result =
        .ok { ok := true, ticket_id := 7, type_id_from_ia := .num 14,
              diagnosis_body := .str "x", delegated_to_error_log := false,
              incident_data := none } :=
  ⟨rfl, rfl, rfl⟩

/-- C5 amended: the parsed is_security_alert and criticality_score
fields are ignored entirely — every run that reaches the synchronous
write step writes the body
"[Procesado por: mod_agentes]\n\n{diagnosis}" with the data-or-default
subject, with no emergency banner and no critical-alert subject prefix. -/
theorem C5_amended_no_emergency_handling (w : OrchWorld) (t : String) (g : GenDiagnosis)
    (hext : extract_relevant_text w.articles = some t)
    (hgen : generate_diagnosis w.modelResponse = .ok g)
    (hchk : emptyDiagnosisCheck g.diagnostico = .ok ())
    (hsub : (diagnose_and_update_ticket w).incidentSubmitted = none) :
    (diagnose_and_update_ticket w).syncWrites =
      [ .ticketUpdate w.ticket_id w.session_id
          (pyOr w.data.titulo (.str ("Ticket Update " ++ toString w.ticket_id)))
          (pyOr w.data.usuario (.str ""))
          (pyOr w.data.queue_id (.num 1))
          (pyOr w.data.priority_id (.num 3))
          (pyOr w.data.state_id (.num 4))
          (pyOr w.data.subject (.str "Automatic Diagnosis (AI)"))
          ("[Procesado por: mod_agentes]\n\n" ++ pyStr g.diagnostico) g.type_id ] := by
  rcases diagnose_and_update_cases w with ⟨h1, ho⟩ | ⟨h1, ho⟩ | ⟨dr, e, h1, h2, ho⟩
    | ⟨t2, dr, d0, h1, h2, h3, hp, ho⟩ | ⟨t2, dr, h1, h2, h3, hp, ho⟩
  · rw [hext] at h1
    exact Option.noConfusion h1
  · rw [hgen] at h1
    exact Except.noConfusion h1
  · injection hgen.symm.trans h1 with hge
    subst hge
    exact Except.noConfusion (hchk.symm.trans h2)
  · rw [ho] at hsub
    exact Option.noConfusion hsub
  · injection hgen.symm.trans h2 with hge
    subst hge
    rw [ho, orch_write_step_writes]

/-- Witness for the amended C5 at the emergency-flagged response. -/
theorem C5_amended_no_emergency_handling_witness :
    (diagnose_and_update_ticket c5World).syncWrites =
      [ .ticketUpdate 7 "sess" (.str "Ticket Update 7") (.str "") (.num 1) (.num 3)
          (.num 4) (.str "Automatic Diagnosis (AI)")
          "[Procesado por: mod_agentes]\n\nx" (.num 14) ] :=
  C5_amended_no_emergency_handling c5World "Subject: hi\n---\nBody:\nprinter jam"
    { type_id := .num 14, requires_visual := .bool false, diagnostico := .str "x" }
    rfl rfl rfl rfl

/-- C8 counterexample: line 320 sets the delegated key on the very dict
already handed to the worker pool, so the record is mutated after
submission: the submit-time snapshot and the returned record differ. -/
theorem C8_mutation_after_submit_cex :
    process_incident 7 "sess" "tt" (.str "d") (.num 10) (some mdSample)
        (.ok [("entidad", .str "ACME")]) "ts" = (some c8d0, some c8d1)
    ∧ c8d0.delegated = none
    ∧ c8d1.delegated = some true
    ∧ c8d1 ≠ c8d0 := by
  refine ⟨rfl, rfl, rfl, ?_⟩
  intro h
  have h2 := congrArg IncidentData.delegated h
  simp only [c8d1, c8d0] at h2
  exact Option.noConfusion h2

/-- C8 amended: the only post-submission mutation of the incident record
is setting the delegated flag to True; every other field of the record
handed to the background task is left unchanged by the synchronous
path. -/
theorem C8_amended_only_delegated_flag (tid : Int) (sid tt : String)
    (db ty : JsonValue) (md : Option TicketMetadata)
    (ci : Except Unit (List (String × JsonValue))) (niso : String)
    (d0 dret : IncidentData)
    (h : process_incident tid sid tt db ty md ci niso = (some d0, some dret)) :
    dret = { d0 with delegated := some true } ∧ d0.delegated = none := by
  rcases process_incident_cases tid sid tt db ty md ci niso with hp | ⟨e0, hp, he0⟩
  · rw [hp] at h
    injection h with h1 h2
    exact Option.noConfusion h1
  · rw [hp] at h
    injection h with h1 h2
    injection h1 with h1
    injection h2 with h2
    subst h1
    subst h2
    exact ⟨rfl, he0⟩

/-- Witness for the amended C8 at a concrete incident. -/
theorem C8_amended_only_delegated_flag_witness :
    c8d1 = { c8d0 with delegated := some true } ∧ c8d0.delegated = none :=
  C8_amended_only_delegated_flag 7 "sess" "tt" (.str "d") (.num 10) (some mdSample)
    (.ok [("entidad", .str "ACME")]) "ts" c8d0 c8d1 rfl

/-- C9: the parse step of the diagnosis operation maps the markdown-fenced
JSON model response to a dict with type_id 14 and diagnosis "x", and maps
the non-JSON raw response "plain text" to a dict with type_id None
(unknown) and the raw text itself as the diagnosis. -/
theorem C9_parse_step :
    diagnose_ticket "```json\n\x7b\"type_id\":14,\"diagnostico\":\"x\"\x7d\n```" =
      .retDict [("type_id", .num 14), ("diagnostico", .str "x")]
    ∧ diagnose_ticket "plain text" =
      .retDict [("diagnostico", .str "plain text"), ("type_id", .null)] :=
  ⟨rfl, rfl⟩

/-- C10: the model response "42" is valid JSON but not a JSON object; the
diagnosis operation raises an uncaught AttributeError on it (only
json.JSONDecodeError is handled after parsing), instead of returning a
diagnosis or the raw-text fallback. -/
theorem C10_nonobject_json_raises :
    json_loads (cleanResponse "42") = some (.num 42)
    ∧ diagnose_ticket "42" = .attrError :=
  ⟨rfl, rfl⟩

end ModAgentes
